import Mathlib

/-!
Shallow embedding of the radius-search engine of this repository
(`zip_radius_offline.py` and `zip_radius_lookup.py`) and proofs of the
specification claims about it.

Modelling conventions:
* Python floats are modelled as real numbers (`ℝ`) for the trigonometric
  engine and as exact rationals (`ℚ`) for the parsing layer, where the
  source only ever stores parsed decimal literals.
* The csv layer (`csv.reader(f, delimiter="\t")`) is modelled by its
  output: a list of records, each a list of column strings.
* Filesystem and network effects of the cache manager are modelled by an
  explicit state record and an outcome record counting network calls.
-/

/-- One in-memory record, `rows.append({"zip": …, "city": …, "state": …,
"lat": …, "lon": …})` in `load_geonames_rows` (both source files). -/
structure Row (α : Type) where
  zip : String
  city : String
  state : String
  lat : α
  lon : α
deriving DecidableEq, Repr

/-- One output record of `nearby_zips_by_radius`: the dict spread
`{**r, "dist_km": dkm}` (offline line 126, lookup line 124). -/
structure SearchResult where
  row : Row ℝ
  dist_km : ℝ

/-- Models Python `math.radians`. -/
noncomputable def radians (x : ℝ) : ℝ := x * Real.pi / 180

/-- Models Python `str.strip()` with no argument: remove leading and
trailing whitespace. -/
def pyStrip (s : String) : String :=
  String.mk (((s.toList.dropWhile Char.isWhitespace).reverse.dropWhile
    Char.isWhitespace).reverse)

/-- Digit run parser: `some n` when `cs` is a non-empty string of ASCII
digits with value `n`. Helper for `pyFloat`. -/
def parseDigits (cs : List Char) : Option ℕ :=
  if cs = [] then none
  else if cs.all Char.isDigit then
    some (cs.foldl (fun n c => 10 * n + (c.toNat - 48)) 0)
  else none

/-- Strips one optional leading sign; returns (isNegative, rest).
Helper for `pyFloat`. -/
def parseSign (cs : List Char) : Bool × List Char :=
  match cs with
  | [] => (false, [])
  | c :: rest =>
    if c == '+' then (false, rest)
    else if c == '-' then (true, rest)
    else (false, cs)

/-- Models Python `float(s)` on the finite decimal notation used by the
GeoNames latitude/longitude columns: optional surrounding whitespace,
optional sign, decimal mantissa with optional fractional part, optional
`e`/`E` exponent.  Returns the exact rational value; returns `none`
exactly when Python would raise `ValueError` on such literals (the
`inf`/`nan` words and digit-group underscores, which never occur in the
dataset columns, are not modelled). -/
def pyFloat (s : String) : Option ℚ :=
  let cs := (pyStrip s).toList
  let p := parseSign cs
  let sp := p.2.span (fun c => !(c == 'e' || c == 'E'))
  let expo : Option ℤ :=
    match sp.2 with
    | [] => some 0
    | _ :: ex =>
      let q := parseSign ex
      (parseDigits q.2).map (fun n => if q.1 then -(n : ℤ) else (n : ℤ))
  let mp := sp.1.span (fun c => c != '.')
  let fp : List Char :=
    match mp.2 with
    | [] => []
    | _ :: t => t
  match expo, parseDigits (mp.1 ++ fp) with
  | some e, some m =>
    let base : ℤ := if p.1 then -(m : ℤ) else (m : ℤ)
    if 0 ≤ e then some (mkRat (base * ((10 ^ e.toNat : ℕ) : ℤ)) (10 ^ fp.length))
    else some (mkRat base (10 ^ fp.length * 10 ^ (-e).toNat))
  | _, _ => none

/-- Models Python `str.zfill(w)`: left-pad with `'0'` to width `w`,
keeping a leading sign in front of the padding. -/
def pyZfill (s : String) (w : ℕ) : String :=
  if w ≤ s.length then s
  else
    match s.toList with
    | '+' :: rest => String.mk ('+' :: (List.replicate (w - s.length) '0' ++ rest))
    | '-' :: rest => String.mk ('-' :: (List.replicate (w - s.length) '0' ++ rest))
    | l => String.mk (List.replicate (w - s.length) '0' ++ l)

/-- Models Python `str.isdigit()` on ASCII data: non-empty and all digits. -/
def pyIsDigit (s : String) : Bool := !s.toList.isEmpty && s.toList.all Char.isDigit

/-- Loop body of `load_geonames_rows` (offline lines 75–92, lookup lines
87–104), for one tab-separated record: skip when fewer than 11 columns,
when a coordinate fails to parse as a float, or when the postal code is
empty; otherwise build the row, zero-padding purely numeric postal codes
to width 5.  Python's `(rec[i] or "").strip()` is `pyStrip` here: `rec[i]`
is already a string, and `or ""` maps `""` to itself. -/
def geoRow (rec : List String) : Option (Row ℚ) :=
  if rec.length < 11 then none
  else
    let pc := pyStrip (rec.getD 1 "")
    let place := pyStrip (rec.getD 2 "")
    let st := pyStrip (rec.getD 4 "")
    match pyFloat (rec.getD 9 ""), pyFloat (rec.getD 10 "") with
    | some zlat, some zlon =>
      if pc = "" then none
      else
        some { zip := if pyIsDigit pc then pyZfill pc 5 else pc
               city := place
               state := st
               lat := zlat
               lon := zlon }
    | _, _ => none

/-- Models `load_geonames_rows` (offline lines 65–95, lookup lines 77–107;
the two bodies are textually identical), applied to the record list the
csv reader yields for the cached flat-file.  Raising
`RuntimeError("No rows parsed…")` is modelled as `Except.error`. -/
def load_geonames_rows (recs : List (List String)) : Except String (List (Row ℚ)) :=
  let rows := recs.filterMap geoRow
  if rows.isEmpty then Except.error "No rows parsed from GeoNames US.txt."
  else Except.ok rows

/-- Cached flat-file path constant (`GEONAMES_TXT`, user-home relative). -/
def GEONAMES_TXT : String := ".zip_radius_cache/geonames_us/US.txt"

/-- Filesystem state seen by `ensure_geonames_us`: whether the cached
flat-file exists and its modification age in days,
`(time.time() - os.path.getmtime(GEONAMES_TXT)) / 86400.0`. -/
structure CacheState where
  txtExists : Bool
  txtAgeDays : ℚ
deriving DecidableEq, Repr

/-- Observable outcome of `ensure_geonames_us`: the returned path, how
many network requests (`http_get_bytes`) were made, and whether the
cached archive/flat-file pair was rewritten. -/
structure EnsureOutcome where
  path : String
  networkCalls : ℕ
  cacheRefreshed : Bool
deriving DecidableEq, Repr

/-- Models `ensure_geonames_us` (offline lines 40–63; lookup lines 58–75
hardcode `max_age_days = 180`): if the cached flat-file exists and its
age is strictly below `max_age_days`, return its path with no network
call and no cache write; otherwise download the archive (one network
request) and rewrite the cached files.  `os.makedirs(…, exist_ok=True)`
only touches the directory tree, not the cached file, and is not part of
the observable outcome modelled here. -/
def ensure_geonames_us (max_age_days : ℚ) (st : CacheState) : EnsureOutcome :=
  if st.txtExists ∧ st.txtAgeDays < max_age_days then
    { path := GEONAMES_TXT, networkCalls := 0, cacheRefreshed := false }
  else
    { path := GEONAMES_TXT, networkCalls := 1, cacheRefreshed := true }

namespace Offline

/-- Models `km_to_miles` (zip_radius_offline.py line 24). -/
noncomputable def km_to_miles (km : ℝ) : ℝ := km * 0.621371

/-- Models `miles_to_km` (zip_radius_offline.py line 25). -/
noncomputable def miles_to_km (mi : ℝ) : ℝ := mi / 0.621371

/-- The intermediate `a` of `haversine_km` (zip_radius_offline.py line 31). -/
noncomputable def havA (lat1 lon1 lat2 lon2 : ℝ) : ℝ :=
  Real.sin (radians (lat2 - lat1) / 2) ^ 2 +
    Real.cos (radians lat1) * Real.cos (radians lat2) *
      Real.sin (radians (lon2 - lon1) / 2) ^ 2

/-- Models `haversine_km` (zip_radius_offline.py lines 27–32),
`R = 6371.0088`. -/
noncomputable def haversine_km (lat1 lon1 lat2 lon2 : ℝ) : ℝ :=
  2 * 6371.0088 * Real.arcsin (Real.sqrt (havA lat1 lon1 lat2 lon2))

/-- Loop body of `nearest_zip` (zip_radius_offline.py lines 102–105):
compute the distance to row `r` and replace the best candidate exactly
when the new distance is strictly smaller.  The source initializes
`best = None, best_d = float("inf")`; every computed distance is below
infinity, so the `None` accumulator always accepts the row, which the
first `match` arm models. -/
noncomputable def nearestStep (lat lon : ℝ) (best : Option (Row ℝ × ℝ)) (r : Row ℝ) :
    Option (Row ℝ × ℝ) :=
  match best with
  | none => some (r, haversine_km lat lon r.lat r.lon)
  | some (b, bd) =>
    if haversine_km lat lon r.lat r.lon < bd then
      some (r, haversine_km lat lon r.lat r.lon)
    else some (b, bd)

/-- Models `nearest_zip` (zip_radius_offline.py lines 98–106).  `best`
remaining `None` on an empty dataset (where the source crashes when
building its result tuple) is modelled as `none`. -/
noncomputable def nearest_zip (lat lon : ℝ) (rows : List (Row ℝ)) :
    Option (Row ℝ × ℝ) :=
  rows.foldl (nearestStep lat lon) none

/-- The pre-sort list `out` of `nearby_zips_by_radius`
(zip_radius_offline.py lines 113–126): the loop with `continue` on the
bounding-box test and conditional `append` is a `filterMap`.  The
let-bound `dlat`, `lon_scale`, `dlon`, `lat_min`, `lat_max`, `lon_min`,
`lon_max` of the source are pure and inlined. -/
noncomputable def nearbyFiltered (lat lon radius_km : ℝ) (rows : List (Row ℝ)) :
    List SearchResult :=
  rows.filterMap (fun r =>
    if r.lat < lat - radius_km / 111 ∨ r.lat > lat + radius_km / 111
        ∨ r.lon < lon - radius_km / (111 * max 0.000001 (Real.cos (radians lat)))
        ∨ r.lon > lon + radius_km / (111 * max 0.000001 (Real.cos (radians lat))) then
      none
    else if haversine_km lat lon r.lat r.lon ≤ radius_km + 1e-9 then
      some { row := r, dist_km := haversine_km lat lon r.lat r.lon }
    else none)

/-- Models `nearby_zips_by_radius` (zip_radius_offline.py lines 108–128).
Python's `out.sort(key=lambda x: x["dist_km"])` is a stable sort by key,
which is exactly insertion sort on the reflexive key order. -/
noncomputable def nearby_zips_by_radius (lat lon radius_km : ℝ)
    (rows : List (Row ℝ)) : List SearchResult :=
  List.insertionSort (fun a b => a.dist_km ≤ b.dist_km)
    (nearbyFiltered lat lon radius_km rows)

end Offline

namespace Lookup

/-- Models `km_to_miles` (zip_radius_lookup.py line 48). -/
noncomputable def km_to_miles (km : ℝ) : ℝ := km * 0.621371

/-- Models `miles_to_km` (zip_radius_lookup.py line 49). -/
noncomputable def miles_to_km (mi : ℝ) : ℝ := mi / 0.621371

/-- The intermediate `a` of `haversine_km` (zip_radius_lookup.py line 55). -/
noncomputable def havA (lat1 lon1 lat2 lon2 : ℝ) : ℝ :=
  Real.sin (radians (lat2 - lat1) / 2) ^ 2 +
    Real.cos (radians lat1) * Real.cos (radians lat2) *
      Real.sin (radians (lon2 - lon1) / 2) ^ 2

/-- Models `haversine_km` (zip_radius_lookup.py lines 51–56). -/
noncomputable def haversine_km (lat1 lon1 lat2 lon2 : ℝ) : ℝ :=
  2 * 6371.0088 * Real.arcsin (Real.sqrt (havA lat1 lon1 lat2 lon2))

/-- The row-processing core of `nearby_zips_by_radius`
(zip_radius_lookup.py lines 111–126), as a function of the row list that
line 110 (`rows = load_geonames_rows(context=context)`) produces. -/
noncomputable def nearbyFiltered (lat lon radius_km : ℝ) (rows : List (Row ℝ)) :
    List SearchResult :=
  rows.filterMap (fun r =>
    if r.lat < lat - radius_km / 111 ∨ r.lat > lat + radius_km / 111
        ∨ r.lon < lon - radius_km / (111 * max 0.000001 (Real.cos (radians lat)))
        ∨ r.lon > lon + radius_km / (111 * max 0.000001 (Real.cos (radians lat))) then
      none
    else if haversine_km lat lon r.lat r.lon ≤ radius_km + 1e-9 then
      some { row := r, dist_km := haversine_km lat lon r.lat r.lon }
    else none)

/-- Models `nearby_zips_by_radius` (zip_radius_lookup.py lines 109–126)
after the internal dataset load, on an explicit row list. -/
noncomputable def nearby_zips_by_radius (lat lon radius_km : ℝ)
    (rows : List (Row ℝ)) : List SearchResult :=
  List.insertionSort (fun a b => a.dist_km ≤ b.dist_km)
    (nearbyFiltered lat lon radius_km rows)

end Lookup

/-! ## Helper lemmas -/

/-- A fixed point row used to instantiate hypothesis-bearing theorems. -/
def row0 : Row ℝ :=
  { zip := "00000", city := "Origin", state := "OR", lat := 0, lon := 0 }

lemma radians_sub_neg (x y : ℝ) : radians (x - y) = -(radians (y - x)) := by
  unfold radians; ring

lemma havA_symm (lat1 lon1 lat2 lon2 : ℝ) :
    Offline.havA lat2 lon2 lat1 lon1 = Offline.havA lat1 lon1 lat2 lon2 := by
  unfold Offline.havA
  rw [radians_sub_neg lat1 lat2, radians_sub_neg lon1 lon2, neg_div, neg_div,
    Real.sin_neg, Real.sin_neg]
  ring

lemma havA_self (lat lon : ℝ) : Offline.havA lat lon lat lon = 0 := by
  unfold Offline.havA radians
  simp

lemma haversine_km_symm (lat1 lon1 lat2 lon2 : ℝ) :
    Offline.haversine_km lat1 lon1 lat2 lon2 =
      Offline.haversine_km lat2 lon2 lat1 lon1 := by
  unfold Offline.haversine_km
  rw [havA_symm]

lemma haversine_km_self (lat lon : ℝ) : Offline.haversine_km lat lon lat lon = 0 := by
  unfold Offline.haversine_km
  rw [havA_self]
  simp

/-! ## C10: the two files implement the same core engine -/

/-- C10: `haversine_km`, `km_to_miles` and `miles_to_km` of
`zip_radius_lookup.py` compute the same functions as their namesakes in
`zip_radius_offline.py`, and on every query point, radius and loaded row
sequence the prune/filter/sort pipeline of `nearby_zips_by_radius` in the
two files produces identical output sequences. -/
theorem lookup_offline_engines_equal :
    (∀ lat1 lon1 lat2 lon2 : ℝ,
        Lookup.haversine_km lat1 lon1 lat2 lon2 =
          Offline.haversine_km lat1 lon1 lat2 lon2)
    ∧ (∀ km : ℝ, Lookup.km_to_miles km = Offline.km_to_miles km)
    ∧ (∀ mi : ℝ, Lookup.miles_to_km mi = Offline.miles_to_km mi)
    ∧ ∀ (lat lon radius_km : ℝ) (rows : List (Row ℝ)),
        Lookup.nearby_zips_by_radius lat lon radius_km rows =
          Offline.nearby_zips_by_radius lat lon radius_km rows :=
  ⟨fun _ _ _ _ => rfl, fun _ => rfl, fun _ => rfl, fun _ _ _ _ => rfl⟩

/-! ## C8: symmetry of the distance, zero on identical points -/

/-- C8: the haversine distance is symmetric — in this real-number model of
the float computation the two evaluation orders are exactly equal — and on
identical points it is zero within `1e-9` km (here: exactly zero). -/
theorem haversine_km_symm_and_self_zero :
    (∀ lat1 lon1 lat2 lon2 : ℝ,
        Offline.haversine_km lat1 lon1 lat2 lon2 =
          Offline.haversine_km lat2 lon2 lat1 lon1)
    ∧ ∀ lat lon : ℝ, |Offline.haversine_km lat lon lat lon| ≤ 1e-9 := by
  refine ⟨fun lat1 lon1 lat2 lon2 => haversine_km_symm lat1 lon1 lat2 lon2, ?_⟩
  intro lat lon
  rw [haversine_km_self]
  norm_num

/-! ## C5: cache freshness decides the network fetch -/

/-- C5: `ensure_geonames_us` fetches over the network if and only if the
freshness check fails: with a cached flat-file younger than
`max_age_days` it returns the cached path with zero network calls and no
cache write; with the file absent or at least `max_age_days` old it
downloads (one network call) and rewrites the cache. -/
theorem ensure_geonames_us_fetch_iff_stale :
    ∀ (max_age_days : ℚ) (st : CacheState),
      ((st.txtExists = true ∧ st.txtAgeDays < max_age_days) →
        ensure_geonames_us max_age_days st =
          { path := GEONAMES_TXT, networkCalls := 0, cacheRefreshed := false })
      ∧ ((st.txtExists = false ∨ max_age_days ≤ st.txtAgeDays) →
        ensure_geonames_us max_age_days st =
          { path := GEONAMES_TXT, networkCalls := 1, cacheRefreshed := true }) := by
  intro m st
  constructor
  · intro h
    unfold ensure_geonames_us
    rw [if_pos h]
  · intro h
    unfold ensure_geonames_us
    rw [if_neg]
    rintro ⟨h1, h2⟩
    rcases h with h | h
    · rw [h1] at h; exact Bool.noConfusion h
    · exact absurd h2 (not_lt.2 h)

/-- Witness for C5: a cache file 200 days old with `max_age_days = 180`
forces a download, and a 10-day-old one is returned with no network call. -/
theorem ensure_geonames_us_fetch_witness :
    ensure_geonames_us 180 { txtExists := true, txtAgeDays := 200 } =
      { path := GEONAMES_TXT, networkCalls := 1, cacheRefreshed := true }
    ∧ ensure_geonames_us 180 { txtExists := true, txtAgeDays := 10 } =
      { path := GEONAMES_TXT, networkCalls := 0, cacheRefreshed := false } :=
  ⟨(ensure_geonames_us_fetch_iff_stale 180 { txtExists := true, txtAgeDays := 200 }).2
      (Or.inr (by norm_num)),
   (ensure_geonames_us_fetch_iff_stale 180 { txtExists := true, txtAgeDays := 10 }).1
      ⟨rfl, by norm_num⟩⟩

/-! ## C6: the loader fails exactly when no valid record parses -/

/-- C6: `load_geonames_rows` fails (with the `DatasetCorrupt` error,
`RuntimeError` in the source) if and only if zero valid records are
parsed, and with at least one valid record it returns the parsed
sequence without error. -/
theorem load_geonames_rows_error_iff_empty :
    ∀ recs : List (List String),
      ((∃ e, load_geonames_rows recs = Except.error e) ↔
        recs.filterMap geoRow = [])
      ∧ (recs.filterMap geoRow ≠ [] →
        load_geonames_rows recs = Except.ok (recs.filterMap geoRow)) := by
  intro recs
  unfold load_geonames_rows
  by_cases h : recs.filterMap geoRow = []
  · rw [h]
    simp
  · rw [if_neg (by simpa [List.isEmpty_iff] using h)]
    simp [h]

/-- Witness for C6: a file whose single record is valid loads without
error. -/
theorem load_geonames_rows_ok_witness :
    load_geonames_rows
        [["US", "99999", "Town", "", "CA", "", "", "", "", "10.5", "-20.25", "1"]] =
      Except.ok
        ([["US", "99999", "Town", "", "CA", "", "", "", "", "10.5", "-20.25", "1"]].filterMap
          geoRow) :=
  (load_geonames_rows_error_iff_empty
      [["US", "99999", "Town", "", "CA", "", "", "", "", "10.5", "-20.25", "1"]]).2
    (by decide)

/-! ## C7: short lines are skipped silently -/

/-- C7: a line with fewer than 11 tab-separated columns is skipped: it
contributes no record, raises no error, and the records parsed from the
remaining lines are exactly those of the same file without that line. -/
theorem short_line_skipped :
    ∀ (pre post : List (List String)) (bad : List String), bad.length < 11 →
      (pre ++ bad :: post).filterMap geoRow = (pre ++ post).filterMap geoRow
      ∧ load_geonames_rows (pre ++ bad :: post) = load_geonames_rows (pre ++ post) := by
  intro pre post bad h
  have hb : geoRow bad = none := by
    unfold geoRow
    rw [if_pos h]
  have h1 : (pre ++ bad :: post).filterMap geoRow = (pre ++ post).filterMap geoRow := by
    simp [List.filterMap_append, List.filterMap_cons, hb]
  refine ⟨h1, ?_⟩
  unfold load_geonames_rows
  rw [h1]

/-- Witness for C7: inserting a 5-column line after a valid record leaves
the parsed output unchanged. -/
theorem short_line_skipped_witness :
    ([["US", "99999", "Town", "", "CA", "", "", "", "", "10.5", "-20.25", "1"]] ++
        ["US", "99999", "Town", "40", "50"] :: []).filterMap geoRow =
      ([["US", "99999", "Town", "", "CA", "", "", "", "", "10.5", "-20.25", "1"]] ++
        []).filterMap geoRow
    ∧ load_geonames_rows
        ([["US", "99999", "Town", "", "CA", "", "", "", "", "10.5", "-20.25", "1"]] ++
          ["US", "99999", "Town", "40", "50"] :: []) =
      load_geonames_rows
        ([["US", "99999", "Town", "", "CA", "", "", "", "", "10.5", "-20.25", "1"]] ++ []) :=
  short_line_skipped [["US", "99999", "Town", "", "CA", "", "", "", "", "10.5", "-20.25", "1"]]
    [] ["US", "99999", "Town", "40", "50"] (by decide)

/-! ## C4: loaded rows — which invariants the loader actually enforces -/

lemma mk_ne_empty {l : List Char} (h : l ≠ []) : String.mk l ≠ "" := by
  intro hc
  have h2 := congrArg String.data hc
  exact h h2

lemma pyZfill_ne_empty (s : String) (w : ℕ) (h : s ≠ "") : pyZfill s w ≠ "" := by
  unfold pyZfill
  split
  · exact h
  · rename_i hw
    split
    · apply mk_ne_empty; simp
    · apply mk_ne_empty; simp
    · apply mk_ne_empty
      intro hc
      rw [List.append_eq_nil] at hc
      have h0 := congrArg List.length hc.1
      simp [List.length_replicate] at h0
      omega

/-- Counterexample to C4: the loader performs no range validation on
coordinates.  A record with latitude literal `"200.0"` parses without
error into a row whose `lat` is `200`, outside `[-90, 90]`. -/
theorem loader_accepts_out_of_range_latitude :
    load_geonames_rows
        [["US", "99999", "Nowhere", "", "ZZ", "", "", "", "", "200.0", "0.0", "1"]] =
      Except.ok [{ zip := "99999", city := "Nowhere", state := "ZZ", lat := 200, lon := 0 }]
    ∧ ¬((200 : ℚ) ≤ 90) := by
  have h : [["US", "99999", "Nowhere", "", "ZZ", "", "", "", "", "200.0", "0.0", "1"]].filterMap
      geoRow = [{ zip := "99999", city := "Nowhere", state := "ZZ", lat := 200, lon := 0 }] := by
    decide
  constructor
  · simp only [load_geonames_rows]
    rw [h]
    rfl
  · decide

/-- C4 (amended): every row returned by `load_geonames_rows` has a
non-empty postal code (the `if pc` guard plus zero-padding enforce it);
the latitude/longitude range invariants are not enforced by the loader
and hold only when the input file's values are themselves in range. -/
theorem loader_rows_nonempty_code :
    ∀ (recs : List (List String)) (rows : List (Row ℚ)),
      load_geonames_rows recs = Except.ok rows → ∀ r ∈ rows, r.zip ≠ "" := by
  intro recs rows hok r hr
  have hrows : rows = recs.filterMap geoRow := by
    simp only [load_geonames_rows] at hok
    split at hok
    · exact absurd hok (by simp)
    · exact (Except.ok.inj hok).symm
  rw [hrows] at hr
  rcases List.mem_filterMap.1 hr with ⟨rec, _, hrec⟩
  simp only [geoRow] at hrec
  split at hrec
  · exact absurd hrec (by simp)
  · split at hrec
    · split at hrec
      · exact absurd hrec (by simp)
      · rename_i hpc
        have hinj := Option.some.inj hrec
        rw [← hinj]
        by_cases hd : pyIsDigit (pyStrip (rec.getD 1 ""))
        · simp only [hd, if_true]
          exact pyZfill_ne_empty _ 5 hpc
        · simp only [hd, if_false]
          exact hpc
    · exact absurd hrec (by simp)

/-- Witness for the amended C4 at a concrete file and row. -/
theorem loader_rows_nonempty_code_witness :
    ({ zip := "99999", city := "Nowhere", state := "ZZ", lat := 200, lon := 0 } : Row ℚ).zip ≠ "" :=
  loader_rows_nonempty_code
    [["US", "99999", "Nowhere", "", "ZZ", "", "", "", "", "200.0", "0.0", "1"]]
    [{ zip := "99999", city := "Nowhere", state := "ZZ", lat := 200, lon := 0 }]
    (by
      have h : [["US", "99999", "Nowhere", "", "ZZ", "", "", "", "", "200.0", "0.0",
          "1"]].filterMap geoRow =
          [{ zip := "99999", city := "Nowhere", state := "ZZ", lat := 200, lon := 0 }] := by
        decide
      simp only [load_geonames_rows]
      rw [h]
      rfl)
    { zip := "99999", city := "Nowhere", state := "ZZ", lat := 200, lon := 0 }
    (by simp)

/-! ## C2: nearest_zip returns the first row at minimum distance -/

lemma nearest_fold_first_min (lat lon : ℝ) :
    ∀ (l : List (Row ℝ)) (b0 : Row ℝ),
      ∃ (r : Row ℝ) (pre post : List (Row ℝ)),
        List.foldl (Offline.nearestStep lat lon)
            (some (b0, Offline.haversine_km lat lon b0.lat b0.lon)) l
          = some (r, Offline.haversine_km lat lon r.lat r.lon)
        ∧ b0 :: l = pre ++ r :: post
        ∧ (∀ p ∈ pre,
            Offline.haversine_km lat lon r.lat r.lon <
              Offline.haversine_km lat lon p.lat p.lon)
        ∧ ∀ p ∈ b0 :: l,
            Offline.haversine_km lat lon r.lat r.lon ≤
              Offline.haversine_km lat lon p.lat p.lon := by
  intro l
  induction l with
  | nil =>
    intro b0
    exact ⟨b0, [], [], rfl, rfl, by simp, by simp⟩
  | cons x xs ih =>
    intro b0
    rw [List.foldl_cons]
    by_cases hx : Offline.haversine_km lat lon x.lat x.lon <
        Offline.haversine_km lat lon b0.lat b0.lon
    · have hstep : Offline.nearestStep lat lon
          (some (b0, Offline.haversine_km lat lon b0.lat b0.lon)) x
          = some (x, Offline.haversine_km lat lon x.lat x.lon) := by
        simp only [Offline.nearestStep]
        rw [if_pos hx]
      rw [hstep]
      rcases ih x with ⟨r, pre, post, h1, h2, h3, h4⟩
      refine ⟨r, b0 :: pre, post, h1, ?_, ?_, ?_⟩
      · rw [List.cons_append, ← h2]
      · intro p hp
        rcases List.mem_cons.1 hp with hp | hp
        · rw [hp]
          exact lt_of_le_of_lt (h4 x (by simp)) hx
        · exact h3 p hp
      · intro p hp
        rcases List.mem_cons.1 hp with hp | hp
        · rw [hp]
          exact le_of_lt (lt_of_le_of_lt (h4 x (by simp)) hx)
        · exact h4 p hp
    · have hstep : Offline.nearestStep lat lon
          (some (b0, Offline.haversine_km lat lon b0.lat b0.lon)) x
          = some (b0, Offline.haversine_km lat lon b0.lat b0.lon) := by
        simp only [Offline.nearestStep]
        rw [if_neg hx]
      rw [hstep]
      have hb0x : Offline.haversine_km lat lon b0.lat b0.lon ≤
          Offline.haversine_km lat lon x.lat x.lon := not_lt.1 hx
      rcases ih b0 with ⟨r, pre, post, h1, h2, h3, h4⟩
      cases pre with
      | nil =>
        rw [List.nil_append] at h2
        injection h2 with ha hb
        refine ⟨r, [], x :: post, h1, ?_, by simp, ?_⟩
        · rw [List.nil_append, ← ha, ← hb]
        · intro p hp
          rcases List.mem_cons.1 hp with hp | hp
          · rw [hp]; exact h4 b0 (by simp)
          rcases List.mem_cons.1 hp with hp2 | hp2
          · rw [hp2]
            exact le_trans (h4 b0 (by simp)) hb0x
          · exact h4 p (List.mem_cons_of_mem _ hp2)
      | cons q pre1 =>
        rw [List.cons_append] at h2
        injection h2 with ha hb
        have hq := h3 q (by simp)
        rw [← ha] at hq
        refine ⟨r, b0 :: x :: pre1, post, h1, ?_, ?_, ?_⟩
        · simp only [List.cons_append]
          rw [← hb]
        · intro p hp
          rcases List.mem_cons.1 hp with hp | hp
          · rw [hp]; exact hq
          rcases List.mem_cons.1 hp with hp2 | hp2
          · rw [hp2]
            exact lt_of_lt_of_le hq hb0x
          · exact h3 p (by simp [hp2])
        · intro p hp
          rcases List.mem_cons.1 hp with hp | hp
          · rw [hp]; exact h4 b0 (by simp)
          rcases List.mem_cons.1 hp with hp2 | hp2
          · rw [hp2]
            exact le_trans (h4 b0 (by simp)) hb0x
          · exact h4 p (List.mem_cons_of_mem _ hp2)

/-- C2: on an empty dataset `nearest_zip` fails (the `EmptyDataset`
contract, `none` here); on a non-empty dataset it returns the first row
in list order attaining the minimum haversine distance — strictly
smaller than every earlier row's distance, no larger than any row's —
together with that distance. -/
theorem nearest_zip_none_or_first_min :
    ∀ (lat lon : ℝ) (rows : List (Row ℝ)),
      (rows = [] → Offline.nearest_zip lat lon rows = none)
      ∧ (rows ≠ [] →
        ∃ (r : Row ℝ) (pre post : List (Row ℝ)),
          Offline.nearest_zip lat lon rows =
            some (r, Offline.haversine_km lat lon r.lat r.lon)
          ∧ rows = pre ++ r :: post
          ∧ (∀ p ∈ pre,
              Offline.haversine_km lat lon r.lat r.lon <
                Offline.haversine_km lat lon p.lat p.lon)
          ∧ ∀ p ∈ rows,
              Offline.haversine_km lat lon r.lat r.lon ≤
                Offline.haversine_km lat lon p.lat p.lon) := by
  intro lat lon rows
  constructor
  · intro h
    rw [h]
    rfl
  · intro h
    cases rows with
    | nil => exact absurd rfl h
    | cons b0 t =>
      unfold Offline.nearest_zip
      rw [List.foldl_cons]
      have h0 : Offline.nearestStep lat lon none b0 =
          some (b0, Offline.haversine_km lat lon b0.lat b0.lon) := rfl
      rw [h0]
      exact nearest_fold_first_min lat lon t b0

/-- Witness for C2: the empty dataset yields `none`, and a singleton
dataset yields its row as the first minimum. -/
theorem nearest_zip_witness :
    Offline.nearest_zip 0 0 [] = none
    ∧ ∃ (r : Row ℝ) (pre post : List (Row ℝ)),
        Offline.nearest_zip 0 0 [row0] =
          some (r, Offline.haversine_km 0 0 r.lat r.lon)
        ∧ [row0] = pre ++ r :: post
        ∧ (∀ p ∈ pre,
            Offline.haversine_km 0 0 r.lat r.lon <
              Offline.haversine_km 0 0 p.lat p.lon)
        ∧ ∀ p ∈ [row0],
            Offline.haversine_km 0 0 r.lat r.lon ≤
              Offline.haversine_km 0 0 p.lat p.lon :=
  ⟨(nearest_zip_none_or_first_min 0 0 []).1 rfl,
   (nearest_zip_none_or_first_min 0 0 [row0]).2 (by simp)⟩

/-! ## C3: results sorted ascending by distance, ties in input order -/

instance : IsTotal SearchResult (fun a b => a.dist_km ≤ b.dist_km) :=
  ⟨fun a b => le_total a.dist_km b.dist_km⟩

instance : IsTrans SearchResult (fun a b => a.dist_km ≤ b.dist_km) :=
  ⟨fun _ _ _ h1 h2 => le_trans h1 h2⟩

lemma filter_key_orderedInsert (d : ℝ) (x : SearchResult) (l : List SearchResult) :
    (List.orderedInsert (fun a b => a.dist_km ≤ b.dist_km) x l).filter
        (fun y => y.dist_km = d)
      = (x :: l).filter (fun y => y.dist_km = d) := by
  induction l with
  | nil => rfl
  | cons b t ih =>
    rw [List.orderedInsert]
    by_cases hxb : x.dist_km ≤ b.dist_km
    · rw [if_pos hxb]
    · rw [if_neg hxb]
      by_cases hx : x.dist_km = d
      · have hb : ¬(b.dist_km = d) := by
          intro hbd
          exact hxb (le_of_eq (hx.trans hbd.symm))
        simp only [List.filter_cons, hx, hb, ih, decide_True, decide_False,
          if_true, if_false, decide_eq_true_eq]
        simp [hb]
      · simp only [List.filter_cons, ih]
        simp [hx]

lemma filter_key_insertionSort (d : ℝ) (l : List SearchResult) :
    (List.insertionSort (fun a b => a.dist_km ≤ b.dist_km) l).filter
        (fun y => y.dist_km = d)
      = l.filter (fun y => y.dist_km = d) := by
  induction l with
  | nil => rfl
  | cons a t ih =>
    rw [List.insertionSort, filter_key_orderedInsert]
    simp only [List.filter_cons, ih]

lemma filterMap_map_row_sublist (f : Row ℝ → Option SearchResult)
    (hf : ∀ r x, f r = some x → x.row = r) :
    ∀ rows : List (Row ℝ), ((rows.filterMap f).map SearchResult.row).Sublist rows := by
  intro rows
  induction rows with
  | nil => simp
  | cons r t ih =>
    rw [List.filterMap_cons]
    cases hfr : f r with
    | none => exact ih.cons r
    | some x =>
      rw [List.map_cons, hf r x hfr]
      exact ih.cons₂ r

/-- C3: the sequence returned by `nearby_zips_by_radius` is non-decreasing
in `dist_km`; results with equal `dist_km` appear in the same relative
order as in the pre-sort candidate list, which itself is a filtering of
the input rows in input order (its `row` projection is a sublist of the
input list). -/
theorem nearby_sorted_and_stable :
    ∀ (lat lon radius_km : ℝ) (rows : List (Row ℝ)),
      List.Sorted (fun a b => a.dist_km ≤ b.dist_km)
        (Offline.nearby_zips_by_radius lat lon radius_km rows)
      ∧ (∀ d : ℝ,
          (Offline.nearby_zips_by_radius lat lon radius_km rows).filter
              (fun y => y.dist_km = d)
            = (Offline.nearbyFiltered lat lon radius_km rows).filter
                (fun y => y.dist_km = d))
      ∧ ((Offline.nearbyFiltered lat lon radius_km rows).map SearchResult.row).Sublist
          rows := by
  intro lat lon radius_km rows
  refine ⟨List.sorted_insertionSort _ _, fun d => filter_key_insertionSort d _, ?_⟩
  unfold Offline.nearbyFiltered
  apply filterMap_map_row_sublist
  intro r x h
  split at h
  · exact absurd h (by simp)
  · split at h
    · rw [← Option.some.inj h]
    · exact absurd h (by simp)

/-! ## C9: the arcsin/sqrt argument in the real model, and its boundary
at antipodal points -/

lemma havA_eq_half_one_sub (lat1 lon1 lat2 lon2 : ℝ) :
    Offline.havA lat1 lon1 lat2 lon2 =
      (1 - (Real.sin (radians lat1) * Real.sin (radians lat2) +
        Real.cos (radians lat1) * Real.cos (radians lat2) *
          Real.cos (radians (lon2 - lon1)))) / 2 := by
  unfold Offline.havA
  have e1 : 2 * (radians (lat2 - lat1) / 2) = radians lat2 - radians lat1 := by
    unfold radians; ring
  have e2 : 2 * (radians (lon2 - lon1) / 2) = radians (lon2 - lon1) := by ring
  rw [Real.sin_sq_eq_half_sub, Real.sin_sq_eq_half_sub, e1, e2, Real.cos_sub]
  ring

lemma havA_mem_unit_interval (lat1 lon1 lat2 lon2 : ℝ) :
    0 ≤ Offline.havA lat1 lon1 lat2 lon2 ∧ Offline.havA lat1 lon1 lat2 lon2 ≤ 1 := by
  rw [havA_eq_half_one_sub]
  set s1 := Real.sin (radians lat1) with hs1
  set s2 := Real.sin (radians lat2) with hs2
  set c1 := Real.cos (radians lat1) with hc1
  set c2 := Real.cos (radians lat2) with hc2
  set cd := Real.cos (radians (lon2 - lon1)) with hcd
  have h1 : c1 * c2 + s1 * s2 ≤ 1 := by
    rw [hs1, hs2, hc1, hc2, ← Real.cos_sub]
    exact Real.cos_le_one _
  have h2 : -1 ≤ c1 * c2 + s1 * s2 := by
    rw [hs1, hs2, hc1, hc2, ← Real.cos_sub]
    exact Real.neg_one_le_cos _
  have h3 : c1 * c2 - s1 * s2 ≤ 1 := by
    rw [hs1, hs2, hc1, hc2, ← Real.cos_add]
    exact Real.cos_le_one _
  have h4 : -1 ≤ c1 * c2 - s1 * s2 := by
    rw [hs1, hs2, hc1, hc2, ← Real.cos_add]
    exact Real.neg_one_le_cos _
  have h5 : -1 ≤ cd := Real.neg_one_le_cos _
  have h6 : cd ≤ 1 := Real.cos_le_one _
  constructor
  · rcases le_or_lt 0 (c1 * c2) with hc | hc
    · nlinarith [mul_le_mul_of_nonneg_left h6 hc]
    · nlinarith [mul_le_mul_of_nonpos_left h5 (le_of_lt hc)]
  · rcases le_or_lt 0 (c1 * c2) with hc | hc
    · nlinarith [mul_le_mul_of_nonneg_left h5 hc]
    · nlinarith [mul_le_mul_of_nonpos_left h6 (le_of_lt hc)]

lemma haversine_km_nonneg (lat1 lon1 lat2 lon2 : ℝ) :
    0 ≤ Offline.haversine_km lat1 lon1 lat2 lon2 := by
  unfold Offline.haversine_km
  have h := Real.arcsin_nonneg.2 (Real.sqrt_nonneg (Offline.havA lat1 lon1 lat2 lon2))
  nlinarith

/-- C9: in the exact-real model of the program the intermediate `a` of
`haversine_km` lies in `[0, 1]` for all inputs (half-angle identity) and
the result is non-negative — but at exactly antipodal coordinate pairs
`(lat, lon)` / `(-lat, lon + 180)` the value of `a` is exactly `1`, the
upper boundary of `asin`'s domain (instantiated at the latitude 44.8713
of the failing input).  The floating-point program therefore has zero
rounding margin at and near antipodes: in IEEE doubles the computed `a`
exceeds `1` at near-antipodal valid inputs, `sqrt(a) > 1`, and
`math.asin` raises `ValueError`, contradicting the claim's no-error
assertion; the code lacks the customary clamp of `a` to `[0, 1]`. -/
theorem havA_boundary_at_antipode :
    (∀ lat1 lon1 lat2 lon2 : ℝ,
      0 ≤ Offline.havA lat1 lon1 lat2 lon2
      ∧ Offline.havA lat1 lon1 lat2 lon2 ≤ 1
      ∧ 0 ≤ Offline.haversine_km lat1 lon1 lat2 lon2)
    ∧ (∀ lat lon : ℝ, Offline.havA lat lon (-lat) (lon + 180) = 1)
    ∧ Offline.havA 44.8713 0 (-44.8713) 180 = 1 := by
  have hanti : ∀ lat lon : ℝ, Offline.havA lat lon (-lat) (lon + 180) = 1 := by
    intro lat lon
    unfold Offline.havA
    have e1 : radians (-lat - lat) / 2 = -(radians lat) := by
      unfold radians; ring
    have e2 : radians (-lat) = -(radians lat) := by
      unfold radians; ring
    have e3 : radians (lon + 180 - lon) / 2 = Real.pi / 2 := by
      unfold radians; ring
    rw [e1, e2, e3, Real.sin_neg, Real.cos_neg, Real.sin_pi_div_two]
    have h := Real.sin_sq_add_cos_sq (radians lat)
    nlinarith [h]
  refine ⟨?_, hanti, ?_⟩
  · intro lat1 lon1 lat2 lon2
    exact ⟨(havA_mem_unit_interval lat1 lon1 lat2 lon2).1,
      (havA_mem_unit_interval lat1 lon1 lat2 lon2).2,
      haversine_km_nonneg lat1 lon1 lat2 lon2⟩
  · have h := hanti 44.8713 0
    rw [show ((0:ℝ) + 180) = 180 by norm_num] at h
    exact h

/-! ## C1: soundness of the radius filter; the bbox prune is not
circle-complete -/

/-- C1 (amended): every result of `nearby_zips_by_radius` has
`dist_km ≤ radius_km + 1e-9`, and every input row that survives the
rectangular bounding-box prune and lies within the radius appears in the
result.  Completeness holds relative to the bounding box, not the circle:
the prune itself can discard points inside the circle (see the
counterexample). -/
theorem nearby_sound_and_box_complete :
    ∀ (lat lon radius_km : ℝ) (rows : List (Row ℝ)),
      (∀ x ∈ Offline.nearby_zips_by_radius lat lon radius_km rows,
        x.dist_km ≤ radius_km + 1e-9)
      ∧ ∀ r ∈ rows,
          ¬(r.lat < lat - radius_km / 111 ∨ r.lat > lat + radius_km / 111
              ∨ r.lon < lon - radius_km / (111 * max 0.000001 (Real.cos (radians lat)))
              ∨ r.lon > lon + radius_km / (111 * max 0.000001 (Real.cos (radians lat)))) →
          Offline.haversine_km lat lon r.lat r.lon ≤ radius_km →
          ({ row := r, dist_km := Offline.haversine_km lat lon r.lat r.lon } : SearchResult)
            ∈ Offline.nearby_zips_by_radius lat lon radius_km rows := by
  intro lat lon radius_km rows
  constructor
  · intro x hx
    unfold Offline.nearby_zips_by_radius at hx
    rw [List.mem_insertionSort] at hx
    unfold Offline.nearbyFiltered at hx
    rcases List.mem_filterMap.1 hx with ⟨r, _, hfr⟩
    split at hfr
    · exact absurd hfr (by simp)
    · split at hfr
      · rename_i hd
        rw [← Option.some.inj hfr]
        exact hd
      · exact absurd hfr (by simp)
  · intro r hr hbox hd
    unfold Offline.nearby_zips_by_radius
    rw [List.mem_insertionSort]
    unfold Offline.nearbyFiltered
    refine List.mem_filterMap.2 ⟨r, hr, ?_⟩
    rw [if_neg hbox, if_pos (by linarith : Offline.haversine_km lat lon r.lat r.lon ≤
      radius_km + 1e-9)]

/-- Witness for the amended C1: the origin row is inside the box and the
circle for radius 1 around the origin, it appears in the result, and its
recorded distance obeys the radius bound. -/
theorem nearby_box_complete_witness :
    ({ row := row0, dist_km := Offline.haversine_km 0 0 row0.lat row0.lon } : SearchResult)
      ∈ Offline.nearby_zips_by_radius 0 0 1 [row0]
    ∧ ({ row := row0, dist_km := Offline.haversine_km 0 0 row0.lat row0.lon } :
        SearchResult).dist_km ≤ 1 + 1e-9 := by
  have hm : max (0.000001 : ℝ) (Real.cos (radians 0)) = 1 := by
    rw [show radians 0 = 0 by unfold radians; ring, Real.cos_zero]
    exact max_eq_right (by norm_num)
  have hmem : ({ row := row0, dist_km := Offline.haversine_km 0 0 row0.lat row0.lon } :
      SearchResult) ∈ Offline.nearby_zips_by_radius 0 0 1 [row0] := by
    refine (nearby_sound_and_box_complete 0 0 1 [row0]).2 row0 (by simp) ?_ ?_
    · rw [hm]
      show ¬((0:ℝ) < 0 - 1 / 111 ∨ (0:ℝ) > 0 + 1 / 111 ∨ (0:ℝ) < 0 - 1 / (111 * 1)
        ∨ (0:ℝ) > 0 + 1 / (111 * 1))
      push_neg
      norm_num
    · show Offline.haversine_km 0 0 0 0 ≤ 1
      rw [haversine_km_self]
      norm_num
  exact ⟨hmem, (nearby_sound_and_box_complete 0 0 1 [row0]).1 _ hmem⟩

set_option maxHeartbeats 1000000 in
/-- Counterexample to C1: at high latitude the longitude half-width
`radius_km / (111 * cos lat)`, computed at the query latitude only,
underestimates the longitude spread of the radius circle.  For the query
`(89, 0)` with radius 100 km, the point `(89.5, 55)` lies about 91 km
away — inside the circle — but 55° exceeds the box half-width of about
51.6°, so the prune discards it and `nearby_zips_by_radius` returns an
empty result: a point with true distance `≤ r` is missing. -/
theorem nearby_prune_drops_point_inside_circle :
    (0 : ℝ) ≤ 100
    ∧ Offline.haversine_km 89 0 89.5 55 ≤ 100
    ∧ Offline.nearby_zips_by_radius 89 0 100
        [{ zip := "89501", city := "Pole", state := "NV", lat := 89.5, lon := 55 }] = [] := by
  have hpil := Real.pi_gt_d6
  have hpiu := Real.pi_lt_d6
  have hpi0 : (0:ℝ) < Real.pi := by linarith
  have hp2 : Real.pi ^ 2 < 9.869607 := by nlinarith
  have hp4 : Real.pi ^ 4 < 97.40915 := by nlinarith
  have h180pos : (0:ℝ) < Real.pi / 180 := by linarith
  have hs180cube := Real.sin_gt_sub_cube h180pos (by linarith)
  have hp3 : Real.pi ^ 3 < 31.00629 := by nlinarith
  have hs180lb : (0.0174 : ℝ) ≤ Real.sin (Real.pi / 180) := by nlinarith
  have hs180ub : Real.sin (Real.pi / 180) ≤ Real.pi / 180 := le_of_lt (Real.sin_lt h180pos)
  have hs180nn : (0:ℝ) ≤ Real.sin (Real.pi / 180) := by linarith
  have hcos89 : Real.cos (radians 89) = Real.sin (Real.pi / 180) := by
    rw [show radians 89 = Real.pi / 2 - Real.pi / 180 by unfold radians; ring,
      Real.cos_pi_div_two_sub]
  have hcos895 : Real.cos (radians 89.5) = Real.sin (Real.pi / 360) := by
    rw [show radians 89.5 = Real.pi / 2 - Real.pi / 360 by unfold radians; ring,
      Real.cos_pi_div_two_sub]
  have h360pos : (0:ℝ) < Real.pi / 360 := by linarith
  have hs360ub : Real.sin (Real.pi / 360) ≤ Real.pi / 360 := le_of_lt (Real.sin_lt h360pos)
  have hs360nn : (0:ℝ) ≤ Real.sin (Real.pi / 360) :=
    Real.sin_nonneg_of_nonneg_of_le_pi (le_of_lt h360pos) (by linarith)
  have hA : Offline.havA 89 0 89.5 55 ≤ 0.0000542 := by
    have ha : Offline.havA 89 0 89.5 55 =
        Real.sin (Real.pi / 720) ^ 2 + Real.sin (Real.pi / 180) * Real.sin (Real.pi / 360) *
          Real.sin (11 * Real.pi / 72) ^ 2 := by
      unfold Offline.havA
      rw [show radians (89.5 - 89) / 2 = Real.pi / 720 by unfold radians; ring,
        show radians (55 - 0) / 2 = 11 * Real.pi / 72 by unfold radians; ring,
        hcos89, hcos895]
    rw [ha]
    have h720pos : (0:ℝ) < Real.pi / 720 := by linarith
    have hs720ub : Real.sin (Real.pi / 720) ≤ Real.pi / 720 := le_of_lt (Real.sin_lt h720pos)
    have hs720nn : (0:ℝ) ≤ Real.sin (Real.pi / 720) :=
      Real.sin_nonneg_of_nonneg_of_le_pi (le_of_lt h720pos) (by linarith)
    have h1172pos : (0:ℝ) < 11 * Real.pi / 72 := by linarith
    have hs1172ub : Real.sin (11 * Real.pi / 72) ≤ 11 * Real.pi / 72 :=
      le_of_lt (Real.sin_lt h1172pos)
    have hs1172nn : (0:ℝ) ≤ Real.sin (11 * Real.pi / 72) :=
      Real.sin_nonneg_of_nonneg_of_le_pi (le_of_lt h1172pos) (by linarith)
    have t1 : Real.sin (Real.pi / 720) ^ 2 ≤ (Real.pi / 720) ^ 2 := by nlinarith
    have t2 : Real.sin (11 * Real.pi / 72) ^ 2 ≤ (11 * Real.pi / 72) ^ 2 := by nlinarith
    have t3 : Real.sin (Real.pi / 180) * Real.sin (Real.pi / 360) ≤
        (Real.pi / 180) * (Real.pi / 360) := by nlinarith
    have t4 : Real.sin (Real.pi / 180) * Real.sin (Real.pi / 360) *
        Real.sin (11 * Real.pi / 72) ^ 2 ≤
        (Real.pi / 180) * (Real.pi / 360) * (11 * Real.pi / 72) ^ 2 :=
      mul_le_mul t3 t2 (sq_nonneg _) (by positivity)
    have hnum : (Real.pi / 720) ^ 2 +
        (Real.pi / 180) * (Real.pi / 360) * (11 * Real.pi / 72) ^ 2 ≤ 0.0000542 := by
      nlinarith [hp2, hp4]
    linarith [t1, t4, hnum]
  have hsin78 := Real.sin_gt_sub_cube (show (0:ℝ) < 0.0078 by norm_num) (by norm_num)
  have hsin78lb : (0.0077998 : ℝ) ≤ Real.sin 0.0078 := by nlinarith
  have hsin78nn : (0:ℝ) ≤ Real.sin 0.0078 := by linarith
  have hsq78 : (0.0000542 : ℝ) ≤ Real.sin 0.0078 ^ 2 := by nlinarith
  have hsqrt : Real.sqrt (Offline.havA 89 0 89.5 55) ≤ Real.sin 0.0078 := by
    calc Real.sqrt (Offline.havA 89 0 89.5 55)
        ≤ Real.sqrt (Real.sin 0.0078 ^ 2) := Real.sqrt_le_sqrt (le_trans hA hsq78)
      _ = Real.sin 0.0078 := Real.sqrt_sq hsin78nn
  have harc : Real.arcsin (Real.sqrt (Offline.havA 89 0 89.5 55)) ≤ 0.0078 := by
    have hmono := Real.monotone_arcsin hsqrt
    rwa [Real.arcsin_sin (by linarith) (by linarith)] at hmono
  have hdist : Offline.haversine_km 89 0 89.5 55 ≤ 100 := by
    unfold Offline.haversine_km
    linarith
  have hdlon : 100 / (111 * max 0.000001 (Real.cos (radians 89))) < 55 := by
    rw [hcos89, max_eq_right (by linarith : (0.000001 : ℝ) ≤ Real.sin (Real.pi / 180))]
    rw [div_lt_iff₀ (by nlinarith : (0:ℝ) < 111 * Real.sin (Real.pi / 180))]
    nlinarith
  have hcond : (89.5 : ℝ) < 89 - 100 / 111 ∨ (89.5 : ℝ) > 89 + 100 / 111
      ∨ (55 : ℝ) < 0 - 100 / (111 * max 0.000001 (Real.cos (radians 89)))
      ∨ (55 : ℝ) > 0 + 100 / (111 * max 0.000001 (Real.cos (radians 89))) :=
    Or.inr (Or.inr (Or.inr (by linarith)))
  have hfil : Offline.nearbyFiltered 89 0 100
      [{ zip := "89501", city := "Pole", state := "NV", lat := 89.5, lon := 55 }] = [] := by
    unfold Offline.nearbyFiltered
    simp only [List.filterMap_cons, List.filterMap_nil]
    rw [if_pos hcond]
  refine ⟨by norm_num, hdist, ?_⟩
  unfold Offline.nearby_zips_by_radius
  rw [hfil]
  rfl
